import Mathlib

/-!
Shallow embedding of the time-based credential cache of the
`cloud-idaas/idaas-python-core-sdk` repository
(`cloud_idaas/core/cache/`): `RefreshResult`, `StaleValueBehavior`,
`CachedResultSupplier` (`get`, `_cache_is_stale`,
`_should_initiate_cache_prefetch`, `_refresh_cache`,
`_handle_fetched_success`, `_handle_fetch_failure`, `_jitter_time`) and the
two `PrefetchStrategy` implementations
(`OneCallerBlocksPrefetchStrategy.prefetch`,
`NonBlockingPrefetchStrategy.prefetch`).

Modelling conventions:
  * instants (`datetime`) are rationals (seconds);
  * a single `get()` call is executed sequentially; concurrency-dependent
    inputs are passed explicitly: whether `Lock.acquire(timeout=...)`
    succeeded (`lockAcquired`), the outcome of the one call to the value
    supplier that a refresh would make (`producer`), and the draws of
    `random.random()` used by the jitter (`r1`, `r2`);
  * raising an exception is returning it in an explicit error component;
  * "the producer was invoked n times" is the `producerCalls` counter.
-/

deriving instance DecidableEq for Except

namespace CloudIdaas

/-- `StaleValueBehavior` enum (`stale_value_behavior.py`). -/
inductive StaleValueBehavior
  | STRICT
  | ALLOW
deriving DecidableEq

/-- `RefreshResult` (`refresh_result.py`): cached value plus optional
`stale_time` and `prefetch_time` instants. -/
structure RefreshResult (T : Type) where
  value : T
  stale_time : Option ℚ
  prefetch_time : Option ℚ
deriving DecidableEq

/-- `BLOCKING_REFRESH_MAX_WAIT = timedelta(seconds=5)`, in seconds. -/
def BLOCKING_REFRESH_MAX_WAIT : ℚ := 5

/-- `JITTER_START = timedelta(minutes=5)`, in seconds. -/
def JITTER_START : ℚ := 300

/-- `JITTER_RANGE = timedelta(minutes=5)`, in seconds. -/
def JITTER_RANGE : ℚ := 300

/-- Exceptions raised by `_handle_fetch_failure`:
`CacheException(cause=exception)`. `E` is the type of the underlying
producer exceptions. -/
inductive CacheError (E : Type)
  | cacheException (cause : E)
deriving DecidableEq

/-- Exceptions that can escape `CachedResultSupplier.get`. `attributeError`
models the `AttributeError` Python raises when `self._prefetch_strategy`
is `None` and `.prefetch` is dereferenced on it. -/
inductive GetError (E : Type)
  | concurrentOperationException
  | cacheException (cause : E)
  | attributeError
deriving DecidableEq

/-- A `CacheError` escaping `_refresh_cache` propagates unchanged to the
caller of `get`. -/
def CacheError.toGetError {E : Type} : CacheError E → GetError E
  | .cacheException c => .cacheException c

/-- `CachedResultSupplier._cache_is_stale`: `None` is stale; otherwise
stale iff `stale_time` is set and `clock() > stale_time`. `now` is the
value of `self._clock()`. -/
def cache_is_stale {T : Type} (now : ℚ) : Option (RefreshResult T) → Bool
  | none => true
  | some rr =>
    match rr.stale_time with
    | none => false
    | some st => decide (st < now)

/-- `CachedResultSupplier._should_initiate_cache_prefetch`: `None` never
prefetches; otherwise prefetch iff `prefetch_time` is set and
`clock() > prefetch_time`. -/
def should_initiate_cache_prefetch {T : Type} (now : ℚ) :
    Option (RefreshResult T) → Bool
  | none => false
  | some rr =>
    match rr.prefetch_time with
    | none => false
    | some pt => decide (pt < now)

/-- `CachedResultSupplier._jitter_time`, with the module tunables
`JITTER_START`/`JITTER_RANGE` as explicit parameters and `rand` the draw
of `random.random()` (so `jitter_amount = abs(rand * jitterRange)`). -/
def jitter_time (jitterStart jitterRange rand t : ℚ) : ℚ :=
  if jitterRange ≤ 0 then t
  else t + jitterStart + |rand * jitterRange|

/-- `CachedResultSupplier._handle_fetched_success`: jitter `stale_time`
and `prefetch_time` (two separate `random.random()` draws `r1`, `r2`)
and rebuild the `RefreshResult` with the original value. -/
def handle_fetched_success {T : Type} (r1 r2 : ℚ) (refreshed : RefreshResult T) :
    RefreshResult T :=
  { value := refreshed.value
    stale_time := refreshed.stale_time.map (jitter_time JITTER_START JITTER_RANGE r1)
    prefetch_time := refreshed.prefetch_time.map (jitter_time JITTER_START JITTER_RANGE r2) }

/-- `CachedResultSupplier._handle_fetch_failure`: under `STRICT` raise
`CacheException(cause=e)`; under `ALLOW` just log and return. -/
def handle_fetch_failure {E : Type} (behavior : StaleValueBehavior) (e : E) :
    Except (CacheError E) Unit :=
  match behavior with
  | .STRICT => .error (.cacheException e)
  | .ALLOW => .ok ()

/-- Concurrency-dependent inputs of one `_refresh_cache` call: whether the
bounded `self._refresh_lock.acquire(timeout=...)` succeeded, what the one
call to `self._value_supplier()` would return (or raise), and the two
`random.random()` draws the jitter would use. -/
structure RefreshEnv (T E : Type) where
  lockAcquired : Bool
  producer : Except E (RefreshResult T)
  r1 : ℚ
  r2 : ℚ

/-- Observable outcome of one `_refresh_cache` call: the cached snapshot
afterwards, the exception it raised (if any), how many times the value
supplier was invoked, and whether the refresh lock is still held on exit. -/
structure RefreshOutcome (T E : Type) where
  cached : Option (RefreshResult T)
  raised : Option (CacheError E)
  producerCalls : Nat
  lockHeldAfter : Bool
deriving DecidableEq

/-- `CachedResultSupplier._refresh_cache`. On lock timeout: log and
return. Holding the lock: double-check `_cache_is_stale` on the current
snapshot and return if not stale; otherwise invoke the supplier, updating
the snapshot via `_handle_fetched_success` on success and delegating to
`_handle_fetch_failure` on exception. The `finally` releases the lock on
every path on which it was acquired, so `lockHeldAfter` is always
`false`. -/
def refresh_cache {T E : Type} (behavior : StaleValueBehavior) (env : RefreshEnv T E)
    (now : ℚ) (cached : Option (RefreshResult T)) : RefreshOutcome T E :=
  if !env.lockAcquired then
    { cached := cached, raised := none, producerCalls := 0, lockHeldAfter := false }
  else if !(cache_is_stale now cached) then
    { cached := cached, raised := none, producerCalls := 0, lockHeldAfter := false }
  else
    match env.producer with
    | .ok refreshed_value =>
      { cached := some (handle_fetched_success env.r1 env.r2 refreshed_value)
        raised := none
        producerCalls := 1
        lockHeldAfter := false }
    | .error e =>
      match handle_fetch_failure behavior e with
      | .ok _ =>
        { cached := cached, raised := none, producerCalls := 1, lockHeldAfter := false }
      | .error ce =>
        { cached := cached, raised := some ce, producerCalls := 1, lockHeldAfter := false }

/-- The stale-path step of `get`: run `_refresh_cache` when the snapshot
read at entry is stale, otherwise do nothing. -/
def stale_path {T E : Type} (behavior : StaleValueBehavior) (env : RefreshEnv T E)
    (now : ℚ) (cached : Option (RefreshResult T)) : RefreshOutcome T E :=
  if cache_is_stale now cached then refresh_cache behavior env now cached
  else { cached := cached, raised := none, producerCalls := 0, lockHeldAfter := false }

/-- `MAX_CONCURRENT_REFRESHES = 100`
(`non_blocking_prefetch_strategy.py`). -/
def MAX_CONCURRENT_REFRESHES : Nat := 100

/-- Observable outcome of one `OneCallerBlocksPrefetchStrategy.prefetch`
call over an abstract state `σ` transformed by the updater: the state
afterwards, the `_currently_refreshing` flag on exit, the exception the
call raised to its caller (if any), and how many times the updater was
invoked. -/
structure PrefetchOutcome (σ E : Type) where
  state : σ
  currently_refreshing : Bool
  raised : Option E
  updaterCalls : Nat
deriving DecidableEq

/-- `OneCallerBlocksPrefetchStrategy.prefetch`: skip when
`_currently_refreshing` is set; otherwise set the flag, run
`value_updater()` synchronously and clear the flag in a `finally`. There
is no `except`, so an exception of the updater propagates to the caller
(the second component of `value_updater`'s result). -/
def oneCallerBlocksPrefetch {σ E : Type} (value_updater : σ → σ × Option E)
    (currently_refreshing : Bool) (s : σ) : PrefetchOutcome σ E :=
  if currently_refreshing then
    { state := s, currently_refreshing := currently_refreshing
      raised := none, updaterCalls := 0 }
  else
    let res := value_updater s
    { state := res.1, currently_refreshing := false
      raised := res.2, updaterCalls := 1 }

/-- Instance-and-shared state read by
`NonBlockingPrefetchStrategy.prefetch`: the number of leases currently
available in the class-level `_concurrent_refresh_lease` semaphore, and
this instance's `_currently_prefetching` flag. -/
structure NonBlockingState where
  availableLeases : Nat
  currently_prefetching : Bool
deriving DecidableEq

/-- Observable outcome of one `NonBlockingPrefetchStrategy.prefetch` call:
the state afterwards, the task handed to the shared executor (`some
value_updater` iff `submit` succeeded; `prefetch` never runs the updater
on the calling thread), and whether the call raised to its caller. -/
structure NonBlockingOutcome (U : Type) where
  state : NonBlockingState
  task : Option U
  raised : Bool
deriving DecidableEq

/-- `NonBlockingPrefetchStrategy.prefetch`: try a non-blocking semaphore
acquire and skip on failure; if this instance's flag is unset, set it and
submit the wrapped updater to the shared executor, undoing flag and lease
if `submit` itself raises (`submitOk = false`); if the flag was already
set, release the lease and skip. The `except Exception` around `submit`
means the call never raises to its caller. -/
def nonBlockingPrefetch {U : Type} (value_updater : U) (submitOk : Bool)
    (st : NonBlockingState) : NonBlockingOutcome U :=
  if st.availableLeases = 0 then
    { state := st, task := none, raised := false }
  else if !st.currently_prefetching then
    if submitOk then
      { state := { availableLeases := st.availableLeases - 1, currently_prefetching := true }
        task := some value_updater, raised := false }
    else
      { state := { availableLeases := st.availableLeases - 1 + 1, currently_prefetching := false }
        task := none, raised := false }
  else
    { state := { availableLeases := st.availableLeases - 1 + 1
                 currently_prefetching := st.currently_prefetching }
      task := none, raised := false }

/-- `NonBlockingPrefetchStrategy._run_with_cleanup`, executed later on the
worker thread: run the updater over the cache state, then clear the
instance flag and release the lease in a `finally` (an updater exception
stays on the worker thread). -/
def run_with_cleanup {σ E : Type} (value_updater : σ → σ × Option E)
    (st : NonBlockingState) (s : σ) : σ × NonBlockingState :=
  let res := value_updater s
  (res.1, { availableLeases := st.availableLeases + 1, currently_prefetching := false })

/-- The prefetch strategy object held by a `CachedResultSupplier`, with
the per-call concurrency inputs it needs: the flag state for
`OneCallerBlocks`, and the semaphore/flag state plus `submit` success for
`NonBlocking`. -/
inductive StrategyState
  | oneCallerBlocks (currently_refreshing : Bool)
  | nonBlocking (st : NonBlockingState) (submitOk : Bool)
deriving DecidableEq

/-- `CachedResultSupplier.__init__` stores the `prefetch_strategy`
argument as given; its default is `None` (the docstring's claim that it
defaults to `OneCallerBlocksPrefetchStrategy` is not implemented). -/
def init_prefetch_strategy (prefetch_strategy : Option StrategyState) :
    Option StrategyState :=
  prefetch_strategy

/-- Observable outcome of one `CachedResultSupplier.get` call: the value
returned or exception raised, the cached snapshot afterwards, the number
of value-supplier invocations, and whether the refresh lock is held on
exit. -/
structure GetOutcome (T E : Type) where
  result : Except (GetError E) T
  cached : Option (RefreshResult T)
  producerCalls : Nat
  lockHeldAfter : Bool

/-- The updater that `get` hands to the strategy:
`self._refresh_cache`, threading the cached snapshot and the running
producer-invocation count. -/
def refresh_updater {T E : Type} (behavior : StaleValueBehavior) (env : RefreshEnv T E)
    (now : ℚ) (s : Option (RefreshResult T) × Nat) :
    (Option (RefreshResult T) × Nat) × Option (CacheError E) :=
  let ro := refresh_cache behavior env now s.1
  ((ro.cached, s.2 + ro.producerCalls), ro.raised)

/-- `CachedResultSupplier.get`: read the snapshot; if stale, run
`_refresh_cache` (with inputs `staleEnv`) and re-read; raise
`ConcurrentOperationException` if the snapshot is still `None`; if past
`prefetch_time`, dispatch `self._prefetch_strategy.prefetch(self._refresh_cache)`
(the prefetch-path refresh uses inputs `prefetchEnv`); finally return the
locally captured snapshot's value. A `None` strategy makes the dispatch
an `AttributeError`. -/
def get {T E : Type} (behavior : StaleValueBehavior) (strategy : Option StrategyState)
    (now : ℚ) (staleEnv prefetchEnv : RefreshEnv T E)
    (cached : Option (RefreshResult T)) : GetOutcome T E :=
  let ro := stale_path behavior staleEnv now cached
  match ro.raised with
  | some ce =>
    { result := .error ce.toGetError, cached := ro.cached
      producerCalls := ro.producerCalls, lockHeldAfter := ro.lockHeldAfter }
  | none =>
    match ro.cached with
    | none =>
      { result := .error .concurrentOperationException, cached := ro.cached
        producerCalls := ro.producerCalls, lockHeldAfter := false }
    | some rr =>
      if should_initiate_cache_prefetch now (some rr) then
        match strategy with
        | none =>
          { result := .error .attributeError, cached := ro.cached
            producerCalls := ro.producerCalls, lockHeldAfter := false }
        | some (.oneCallerBlocks flag) =>
          let po := oneCallerBlocksPrefetch (refresh_updater behavior prefetchEnv now)
                      flag (ro.cached, ro.producerCalls)
          match po.raised with
          | some ce =>
            { result := .error ce.toGetError, cached := po.state.1
              producerCalls := po.state.2, lockHeldAfter := false }
          | none =>
            { result := .ok rr.value, cached := po.state.1
              producerCalls := po.state.2, lockHeldAfter := false }
        | some (.nonBlocking nbst submitOk) =>
          let _nb := nonBlockingPrefetch (refresh_updater behavior prefetchEnv now)
                      submitOk nbst
          { result := .ok rr.value, cached := ro.cached
            producerCalls := ro.producerCalls, lockHeldAfter := false }
      else
        { result := .ok rr.value, cached := ro.cached
          producerCalls := ro.producerCalls, lockHeldAfter := false }

/-! ## Helper lemmas -/

/-- A `CacheError` propagated out of the refresh routine is never the
`ConcurrentOperationException`. -/
lemma toGetError_ne_coe {E : Type} (ce : CacheError E) :
    ce.toGetError ≠ GetError.concurrentOperationException := by
  cases ce
  simp [CacheError.toGetError]

/-- Starting from an existing snapshot, the stale-path refresh attempt
never leaves the cache unset: every exit of `_refresh_cache` either keeps
the previous snapshot or installs a new one. -/
lemma stale_path_cached_some {T E : Type} (behavior : StaleValueBehavior)
    (env : RefreshEnv T E) (now : ℚ) (rr : RefreshResult T) :
    (stale_path behavior env now (some rr)).cached ≠ none := by
  unfold stale_path refresh_cache
  split
  · split
    · simp
    · split
      · simp
      · cases hp : env.producer with
        | ok v => simp
        | error e => cases behavior <;> simp [handle_fetch_failure]
  · simp

/-- The steps of `get` after the stale-path refresh can only add further
producer invocations (via the prefetch dispatch), never remove them. -/
lemma get_producerCalls_ge {T E : Type} (behavior : StaleValueBehavior)
    (strategy : Option StrategyState) (now : ℚ) (senv penv : RefreshEnv T E)
    (cached : Option (RefreshResult T)) :
    (stale_path behavior senv now cached).producerCalls ≤
      (get behavior strategy now senv penv cached).producerCalls := by
  have hocb : ∀ (flag : Bool) (c : Option (RefreshResult T)) (n : Nat),
      n ≤ (oneCallerBlocksPrefetch (refresh_updater behavior penv now) flag (c, n)).state.2 := by
    intro flag c n
    cases flag
    · simp [oneCallerBlocksPrefetch, refresh_updater]
    · simp [oneCallerBlocksPrefetch]
  simp only [get]
  split
  · exact le_rfl
  · split
    · exact le_rfl
    · split
      · split
        · exact le_rfl
        · split
          · exact hocb _ _ _
          · exact hocb _ _ _
        · exact le_rfl
      · exact le_rfl

/-! ## Claim theorems -/

/-- Claim C1, counterexample. In the §8 scenario — cached value `"v1"`
with `stale_time = t0+10s`, `prefetch_time = t0+5s`, producer ready to
return `"v2"` — a `get()` at `t0+6s` with `OneCallerBlocksPrefetchStrategy`
returns `"v1"`, not `"v2"`: the prefetch-path invocation of
`_refresh_cache` stops at the staleness double-check (the snapshot is not
yet stale), so the producer is never invoked and the snapshot is
unchanged. -/
theorem c1_counterexample :
    (get .ALLOW (some (.oneCallerBlocks false)) 6
        ⟨true, .ok ⟨"v2", some 16, some 11⟩, 0, 0⟩
        ⟨true, .ok ⟨"v2", some 16, some 11⟩, 0, 0⟩
        (some ⟨"v1", some 10, some 5⟩) : GetOutcome String Unit).result = .ok "v1" ∧
    (get .ALLOW (some (.oneCallerBlocks false)) 6
        ⟨true, .ok ⟨"v2", some 16, some 11⟩, 0, 0⟩
        ⟨true, .ok ⟨"v2", some 16, some 11⟩, 0, 0⟩
        (some ⟨"v1", some 10, some 5⟩) : GetOutcome String Unit).result ≠ .ok "v2" ∧
    (get .ALLOW (some (.oneCallerBlocks false)) 6
        ⟨true, .ok ⟨"v2", some 16, some 11⟩, 0, 0⟩
        ⟨true, .ok ⟨"v2", some 16, some 11⟩, 0, 0⟩
        (some ⟨"v1", some 10, some 5⟩) : GetOutcome String Unit).producerCalls = 0 ∧
    (get .ALLOW (some (.oneCallerBlocks false)) 6
        ⟨true, .ok ⟨"v2", some 16, some 11⟩, 0, 0⟩
        ⟨true, .ok ⟨"v2", some 16, some 11⟩, 0, 0⟩
        (some ⟨"v1", some 10, some 5⟩) : GetOutcome String Unit).cached =
      some ⟨"v1", some 10, some 5⟩ := by
  decide

/-- Claim C1, amended. Whenever the cached snapshot is not stale, a
`get()` with `OneCallerBlocksPrefetchStrategy` — whatever the prefetch
dispatch does — returns the old cached value, leaves the snapshot
unchanged and never invokes the value producer: the prefetch-path call of
the refresh routine aborts at the staleness double-check. -/
theorem c1_amended {T E : Type} (behavior : StaleValueBehavior) (rr : RefreshResult T)
    (now : ℚ) (senv penv : RefreshEnv T E) (flag : Bool)
    (hns : cache_is_stale now (some rr) = false) :
    (get behavior (some (.oneCallerBlocks flag)) now senv penv (some rr)).result =
      .ok rr.value ∧
    (get behavior (some (.oneCallerBlocks flag)) now senv penv (some rr)).cached =
      some rr ∧
    (get behavior (some (.oneCallerBlocks flag)) now senv penv (some rr)).producerCalls
      = 0 := by
  have hro : stale_path behavior senv now (some rr) =
      { cached := some rr, raised := none, producerCalls := 0, lockHeldAfter := false } := by
    simp [stale_path, hns]
  have hrc : refresh_cache behavior penv now (some rr) =
      { cached := some rr, raised := none, producerCalls := 0, lockHeldAfter := false } := by
    simp [refresh_cache, hns, ite_self]
  simp only [get, hro]
  split
  · cases flag
    · simp [oneCallerBlocksPrefetch, refresh_updater, hrc]
    · simp [oneCallerBlocksPrefetch]
  · simp

/-- Claim C1, witness for the amended theorem at the §8 scenario inputs. -/
theorem c1_amended_witness :
    (get .ALLOW (some (.oneCallerBlocks false)) 6
        (⟨true, .ok ⟨"v2", some 16, some 11⟩, 0, 0⟩ : RefreshEnv String Unit)
        ⟨true, .ok ⟨"v2", some 16, some 11⟩, 0, 0⟩
        (some ⟨"v1", some 10, some 5⟩)).result = .ok "v1" ∧
    (get .ALLOW (some (.oneCallerBlocks false)) 6
        (⟨true, .ok ⟨"v2", some 16, some 11⟩, 0, 0⟩ : RefreshEnv String Unit)
        ⟨true, .ok ⟨"v2", some 16, some 11⟩, 0, 0⟩
        (some ⟨"v1", some 10, some 5⟩)).cached = some ⟨"v1", some 10, some 5⟩ ∧
    (get .ALLOW (some (.oneCallerBlocks false)) 6
        (⟨true, .ok ⟨"v2", some 16, some 11⟩, 0, 0⟩ : RefreshEnv String Unit)
        ⟨true, .ok ⟨"v2", some 16, some 11⟩, 0, 0⟩
        (some ⟨"v1", some 10, some 5⟩)).producerCalls = 0 :=
  @c1_amended String Unit .ALLOW ⟨"v1", some 10, some 5⟩ 6
    ⟨true, .ok ⟨"v2", some 16, some 11⟩, 0, 0⟩
    ⟨true, .ok ⟨"v2", some 16, some 11⟩, 0, 0⟩ false (by decide)

/-- Claim C2: for every stale-value policy, when the bounded wait for the
refresh lock fails, `_refresh_cache` returns without invoking the value
producer, without modifying the cached snapshot, and without raising;
the timeout is never surfaced, even under `STRICT`. -/
theorem c2 {T E : Type} (behavior : StaleValueBehavior) (env : RefreshEnv T E)
    (now : ℚ) (cached : Option (RefreshResult T))
    (h : env.lockAcquired = false) :
    refresh_cache behavior env now cached =
      { cached := cached, raised := none, producerCalls := 0, lockHeldAfter := false } := by
  simp [refresh_cache, h]

/-- Claim C2, witness: lock timeout under `STRICT` with an empty cache. -/
theorem c2_witness :
    refresh_cache .STRICT (⟨false, .error (), 0, 0⟩ : RefreshEnv Unit Unit) 0 none =
      { cached := none, raised := none, producerCalls := 0, lockHeldAfter := false } :=
  c2 .STRICT ⟨false, .error (), 0, 0⟩ 0 none rfl

/-- Claim C3: under `STRICT`, with a stale snapshot and a raising
producer, `get()` raises `CacheException` wrapping the producer's
exception, the snapshot is unchanged, the refresh lock is released, and a
subsequent `get()` (stale again, lock acquired) invokes the producer
again. -/
theorem c3 {T E : Type} (rr : RefreshResult T) (e : E)
    (strategy : Option StrategyState) (now now2 : ℚ)
    (senv senv2 penv penv2 : RefreshEnv T E)
    (hstale : cache_is_stale now (some rr) = true)
    (hlock : senv.lockAcquired = true)
    (hprod : senv.producer = .error e)
    (hstale2 : cache_is_stale now2 (some rr) = true)
    (hlock2 : senv2.lockAcquired = true) :
    (get .STRICT strategy now senv penv (some rr)).result =
      .error (.cacheException e) ∧
    (get .STRICT strategy now senv penv (some rr)).cached = some rr ∧
    (get .STRICT strategy now senv penv (some rr)).lockHeldAfter = false ∧
    1 ≤ (get .STRICT strategy now2 senv2 penv2 (some rr)).producerCalls := by
  have hro : stale_path .STRICT senv now (some rr) =
      { cached := some rr, raised := some (.cacheException e), producerCalls := 1
        lockHeldAfter := false } := by
    simp [stale_path, refresh_cache, hstale, hlock, hprod, handle_fetch_failure]
  have hro2 : 1 ≤ (stale_path .STRICT senv2 now2 (some rr)).producerCalls := by
    cases hp : senv2.producer <;>
      simp [stale_path, refresh_cache, hstale2, hlock2, hp, handle_fetch_failure]
  refine ⟨?_, ?_, ?_, le_trans hro2 (get_producerCalls_ge _ _ _ _ _ _)⟩ <;>
    simp [get, hro, CacheError.toGetError]

/-- Claim C3, witness: stale `"old"` snapshot, `STRICT`, producer raising
on both calls. -/
theorem c3_witness :
    (get .STRICT (some (.oneCallerBlocks false)) 1
        (⟨true, .error (), 0, 0⟩ : RefreshEnv String Unit)
        ⟨true, .error (), 0, 0⟩
        (some ⟨"old", some 0, none⟩)).result = .error (.cacheException ()) ∧
    (get .STRICT (some (.oneCallerBlocks false)) 1
        (⟨true, .error (), 0, 0⟩ : RefreshEnv String Unit)
        ⟨true, .error (), 0, 0⟩
        (some ⟨"old", some 0, none⟩)).cached = some ⟨"old", some 0, none⟩ ∧
    (get .STRICT (some (.oneCallerBlocks false)) 1
        (⟨true, .error (), 0, 0⟩ : RefreshEnv String Unit)
        ⟨true, .error (), 0, 0⟩
        (some ⟨"old", some 0, none⟩)).lockHeldAfter = false ∧
    1 ≤ (get .STRICT (some (.oneCallerBlocks false)) 1
        (⟨true, .error (), 0, 0⟩ : RefreshEnv String Unit)
        ⟨true, .error (), 0, 0⟩
        (some ⟨"old", some 0, none⟩)).producerCalls :=
  @c3 String Unit ⟨"old", some 0, none⟩ () (some (.oneCallerBlocks false)) 1 1
    ⟨true, .error (), 0, 0⟩ ⟨true, .error (), 0, 0⟩
    ⟨true, .error (), 0, 0⟩ ⟨true, .error (), 0, 0⟩
    (by decide) rfl rfl (by decide) rfl

/-- Claim C4: under `ALLOW`, with a stale snapshot, a configured strategy
and a producer that raises whenever invoked, `get()` raises nothing,
returns the previously cached (stale) value and leaves the snapshot
unchanged. -/
theorem c4 {T E : Type} (rr : RefreshResult T) (s : StrategyState)
    (now : ℚ) (senv penv : RefreshEnv T E) (e1 e2 : E)
    (hstale : cache_is_stale now (some rr) = true)
    (hp1 : senv.producer = .error e1)
    (hp2 : penv.producer = .error e2) :
    (get .ALLOW (some s) now senv penv (some rr)).result = .ok rr.value ∧
    (get .ALLOW (some s) now senv penv (some rr)).cached = some rr := by
  have hro : stale_path .ALLOW senv now (some rr) =
      { cached := some rr, raised := none
        producerCalls := if senv.lockAcquired then 1 else 0, lockHeldAfter := false } := by
    cases hl : senv.lockAcquired <;>
      simp [stale_path, refresh_cache, hstale, hl, hp1, handle_fetch_failure]
  have hrc : refresh_cache .ALLOW penv now (some rr) =
      { cached := some rr, raised := none
        producerCalls := if penv.lockAcquired then 1 else 0, lockHeldAfter := false } := by
    cases hl : penv.lockAcquired <;>
      simp [refresh_cache, hstale, hl, hp2, handle_fetch_failure]
  simp only [get, hro]
  split
  · cases s with
    | oneCallerBlocks flag =>
      cases flag
      · simp [oneCallerBlocksPrefetch, refresh_updater, hrc]
      · simp [oneCallerBlocksPrefetch]
    | nonBlocking nbst submitOk => simp
  · simp

/-- Claim C4, witness: stale `"old"` snapshot under `ALLOW` with a
failing producer. -/
theorem c4_witness :
    (get .ALLOW (some (.oneCallerBlocks false)) 1
        (⟨true, .error (), 0, 0⟩ : RefreshEnv String Unit)
        ⟨true, .error (), 0, 0⟩
        (some ⟨"old", some 0, none⟩)).result = .ok "old" ∧
    (get .ALLOW (some (.oneCallerBlocks false)) 1
        (⟨true, .error (), 0, 0⟩ : RefreshEnv String Unit)
        ⟨true, .error (), 0, 0⟩
        (some ⟨"old", some 0, none⟩)).cached = some ⟨"old", some 0, none⟩ :=
  @c4 String Unit ⟨"old", some 0, none⟩ (.oneCallerBlocks false) 1
    ⟨true, .error (), 0, 0⟩ ⟨true, .error (), 0, 0⟩ () ()
    (by decide) rfl rfl

/-- Claim C5, counterexample. `OneCallerBlocksPrefetchStrategy.prefetch`
wraps the updater call in `try...finally` with no `except`: with the flag
unset and an updater that raises, the exception propagates to the caller
of `prefetch` (the repository's own test `test_exception_handling`
asserts this propagation). -/
theorem c5_counterexample :
    (oneCallerBlocksPrefetch (fun s : Unit => (s, some ())) false ()).raised = some () ∧
    (oneCallerBlocksPrefetch (fun s : Unit => (s, some ())) false ()).raised ≠ none := by
  decide

/-- Claim C5, amended. `NonBlockingPrefetchStrategy.prefetch` never
raises to its caller; `OneCallerBlocksPrefetchStrategy.prefetch` raises
exactly when its flag is unset and the synchronously invoked updater
raises, propagating that exception. -/
theorem c5_amended :
    (∀ (U : Type) (value_updater : U) (submitOk : Bool) (st : NonBlockingState),
      (nonBlockingPrefetch value_updater submitOk st).raised = false) ∧
    (∀ (σ E : Type) (value_updater : σ → σ × Option E) (flag : Bool) (s : σ),
      (oneCallerBlocksPrefetch value_updater flag s).raised =
        if flag then none else (value_updater s).2) := by
  constructor
  · intro U value_updater submitOk st
    unfold nonBlockingPrefetch
    split
    · rfl
    · split
      · split <;> rfl
      · rfl
  · intro σ E value_updater flag s
    unfold oneCallerBlocksPrefetch
    cases flag <;> simp

/-- Claim C6, counterexample. First-ever `get()` under `STRICT` with a
failing producer: the refresh attempt leaves the snapshot unset, yet
`get()` raises `CacheException`, not `ConcurrentOperationException` — so
"still unset after the refresh attempt" alone does not characterise when
`ConcurrentOperationException` is raised. -/
theorem c6_counterexample :
    (stale_path .STRICT (⟨true, .error (), 0, 0⟩ : RefreshEnv String Unit) 0
        none).cached = none ∧
    (get .STRICT (some (.oneCallerBlocks false)) 0
        (⟨true, .error (), 0, 0⟩ : RefreshEnv String Unit)
        ⟨true, .error (), 0, 0⟩ none).result = .error (.cacheException ()) ∧
    (get .STRICT (some (.oneCallerBlocks false)) 0
        (⟨true, .error (), 0, 0⟩ : RefreshEnv String Unit)
        ⟨true, .error (), 0, 0⟩ none).result ≠
      .error .concurrentOperationException := by
  decide

/-- Claim C6, amended. `get()` raises `ConcurrentOperationException`
exactly when the stale-path refresh attempt raises nothing itself and
still leaves the snapshot unset; and whenever a cached snapshot exists at
entry, `get()` never raises `ConcurrentOperationException`. -/
theorem c6_amended {T E : Type} (behavior : StaleValueBehavior)
    (strategy : Option StrategyState) (now : ℚ)
    (senv penv : RefreshEnv T E) (cached : Option (RefreshResult T)) :
    ((get behavior strategy now senv penv cached).result =
        .error .concurrentOperationException ↔
      ((stale_path behavior senv now cached).raised = none ∧
        (stale_path behavior senv now cached).cached = none)) ∧
    (∀ rr : RefreshResult T, cached = some rr →
      (get behavior strategy now senv penv cached).result ≠
        .error .concurrentOperationException) := by
  have hiff : (get behavior strategy now senv penv cached).result =
      .error .concurrentOperationException ↔
      ((stale_path behavior senv now cached).raised = none ∧
        (stale_path behavior senv now cached).cached = none) := by
    simp only [get]
    cases h1 : (stale_path behavior senv now cached).raised with
    | some ce => simp [h1, toGetError_ne_coe ce]
    | none =>
      cases h2 : (stale_path behavior senv now cached).cached with
      | none => simp [h1, h2]
      | some rr =>
        simp only [h1, h2]
        split
        · split
          · simp
          · split <;> simp [toGetError_ne_coe]
          · simp
        · simp
  refine ⟨hiff, ?_⟩
  intro rr h
  subst h
  intro hres
  exact stale_path_cached_some behavior senv now rr (hiff.mp hres).2

/-- Claim C6, witness for the amended theorem: a `get()` on an existing
snapshot does not raise `ConcurrentOperationException`. -/
theorem c6_amended_witness :
    (get .ALLOW (some (.oneCallerBlocks false)) 0
        (⟨true, .error (), 0, 0⟩ : RefreshEnv String Unit)
        ⟨true, .error (), 0, 0⟩
        (some ⟨"old", some 0, none⟩)).result ≠
      .error .concurrentOperationException :=
  (@c6_amended String Unit .ALLOW (some (.oneCallerBlocks false)) 0
    ⟨true, .error (), 0, 0⟩ ⟨true, .error (), 0, 0⟩
    (some ⟨"old", some 0, none⟩)).2 ⟨"old", some 0, none⟩ rfl

/-- Claim C7: the jitter transform returns `t` unchanged when the range
tunable is ≤ 0; for a positive range it never moves a time earlier than
`t + jitterStart` (for any random draw, thanks to the `abs`), and for a
draw of `random.random()` (in `[0,1)`) it stays within
`t + jitterStart + jitterRange`. -/
theorem c7 (jitterStart jitterRange rand t : ℚ) :
    (jitterRange ≤ 0 → jitter_time jitterStart jitterRange rand t = t) ∧
    (0 < jitterRange → t + jitterStart ≤ jitter_time jitterStart jitterRange rand t) ∧
    (0 < jitterRange → 0 ≤ rand → rand < 1 →
      jitter_time jitterStart jitterRange rand t ≤ t + jitterStart + jitterRange) := by
  refine ⟨fun h => ?_, fun h => ?_, fun h h0 h1 => ?_⟩
  · simp [jitter_time, h]
  · rw [jitter_time, if_neg (not_le.mpr h)]
    have habs : (0:ℚ) ≤ |rand * jitterRange| := abs_nonneg _
    linarith
  · rw [jitter_time, if_neg (not_le.mpr h)]
    rw [abs_of_nonneg (mul_nonneg h0 h.le)]
    nlinarith

/-- Claim C7, witness at the module defaults (5-minute start and range)
and a zero draw. -/
theorem c7_witness :
    jitter_time 300 300 0 0 ≤ 0 + 300 + 300 :=
  (c7 300 300 0 0).2.2 (by norm_num) le_rfl (by norm_num)

/-- Claim C8: `NonBlockingPrefetchStrategy.prefetch` with no available
lease returns with the state unchanged and no task submitted; with a
lease available but `_currently_prefetching` already set, it releases the
acquired lease (state restored) and submits nothing. -/
theorem c8 {U : Type} (value_updater : U) (submitOk : Bool) (st : NonBlockingState) :
    (st.availableLeases = 0 →
      nonBlockingPrefetch value_updater submitOk st =
        { state := st, task := none, raised := false }) ∧
    (0 < st.availableLeases → st.currently_prefetching = true →
      nonBlockingPrefetch value_updater submitOk st =
        { state := st, task := none, raised := false }) := by
  constructor
  · intro h
    simp [nonBlockingPrefetch, h]
  · intro h h2
    obtain ⟨a, f⟩ := st
    simp only at h h2
    subst h2
    have hne : a ≠ 0 := Nat.pos_iff_ne_zero.mp h
    simp [nonBlockingPrefetch, hne, Nat.sub_add_cancel h]

/-- Claim C8, witness: exhausted semaphore. -/
theorem c8_witness :
    nonBlockingPrefetch () true ⟨0, false⟩ =
      { state := ⟨0, false⟩, task := none, raised := false } :=
  (c8 () true ⟨0, false⟩).1 rfl

/-- Claim C9: `OneCallerBlocksPrefetchStrategy.prefetch` skips (updater
not invoked, nothing changed) when `_currently_refreshing` is set at
entry; otherwise it invokes the updater synchronously exactly once and
the flag is clear on exit whether the updater returned or raised. -/
theorem c9 {σ E : Type} (value_updater : σ → σ × Option E) (flag : Bool) (s : σ) :
    (flag = true →
      oneCallerBlocksPrefetch value_updater flag s =
        { state := s, currently_refreshing := true, raised := none, updaterCalls := 0 }) ∧
    (flag = false →
      oneCallerBlocksPrefetch value_updater flag s =
        { state := (value_updater s).1, currently_refreshing := false
          raised := (value_updater s).2, updaterCalls := 1 }) := by
  constructor <;> intro h <;> subst h <;> simp [oneCallerBlocksPrefetch]

/-- Claim C9, witness: flag unset, updater invoked once, flag clear. -/
theorem c9_witness :
    oneCallerBlocksPrefetch (fun n : Nat => (n + 1, (none : Option Unit))) false 0 =
      { state := 1, currently_refreshing := false, raised := none, updaterCalls := 1 } :=
  (c9 (fun n : Nat => (n + 1, (none : Option Unit))) false 0).2 rfl

/-- Claim C10: the constructor stores `prefetch_strategy = None` as given
(no substitution of the documented default), and a `get()` on a cached,
non-stale snapshot past its `prefetch_time` then reaches the prefetch
dispatch and fails with an attribute error on `None`. -/
theorem c10 {T E : Type} (behavior : StaleValueBehavior) (rr : RefreshResult T)
    (now : ℚ) (senv penv : RefreshEnv T E)
    (hns : cache_is_stale now (some rr) = false)
    (hpf : should_initiate_cache_prefetch now (some rr) = true) :
    init_prefetch_strategy none = none ∧
    (get behavior (init_prefetch_strategy none) now senv penv (some rr)).result =
      .error .attributeError := by
  refine ⟨rfl, ?_⟩
  simp [get, stale_path, init_prefetch_strategy, hns, hpf]

/-- Claim C10, witness: snapshot stale at `t=10`, prefetch due at `t=1`,
clock at `t=5`, no strategy configured. -/
theorem c10_witness :
    init_prefetch_strategy none = none ∧
    (get .ALLOW (init_prefetch_strategy none) 5
        (⟨true, .error (), 0, 0⟩ : RefreshEnv String Unit)
        ⟨true, .error (), 0, 0⟩
        (some ⟨"v", some 10, some 1⟩)).result = .error .attributeError :=
  @c10 String Unit .ALLOW ⟨"v", some 10, some 1⟩ 5
    ⟨true, .error (), 0, 0⟩ ⟨true, .error (), 0, 0⟩
    (by decide) (by decide)

end CloudIdaas
